import Mathlib

/-!
Verification of the zaplogger package (logger.go): a shallow embedding of
its configuration resolution, logger construction, global singleton slot,
emission delegation, and byte-sink adapters, together with theorems about
the claimed behaviour.

Modelling conventions: Go pointer mutation of the configuration is made
explicit by returning the updated configuration; a constructor panic is an
Except.error; reads of the global slot take the slot value (an
Option ZapLogger, none standing for a nil pointer) as an explicit argument;
a delegated zap emission is recorded as an Emission value naming the
engine, severity and payload.  The read/write lock serialises slot access
and is not itself modelled; lock-protected reads are modelled as reads of
the current slot value.
-/

namespace Zaplogger

/-- Severity levels of the wrapped zap library, in increasing order:
debug, info, warn, error, dpanic, panic, fatal. -/
inductive Level where
  | debug
  | info
  | warn
  | error
  | dpanic
  | panic
  | fatal
deriving DecidableEq

/-- A Go error value; errors.New carries a message string. -/
structure GoErr where
  msg : String
deriving DecidableEq

/-- The byte sinks (io.Writer values) occurring in the program: a
lumberjack.Logger rotating file sink with its settings, os.Stdout, the
NullWriter, or an externally supplied writer identified abstractly. -/
inductive Writer where
  | lumberjack (filename : String) (maxSize maxBackups maxAge : Int) (compress : Bool)
  | stdout
  | nullWriter
  | custom (id : Nat)
deriving DecidableEq

/-- An arbitrary dynamically typed Go value, as passed to a variadic
logging call: either a string (the only shape this code itself builds,
by converting a byte buffer) or some other value identified abstractly. -/
inductive GoValue where
  | str (bytes : List UInt8)
  | boxed (id : Nat)
deriving DecidableEq

/-- The dynamic value stored in LogConfig.FilenameOrIoWriter: a nil
interface, a path string, an io.Writer, or a value of any other type. -/
inductive DestValue where
  | null
  | path (s : String)
  | writer (w : Writer)
  | other (v : GoValue)
deriving DecidableEq

/-- The configuration struct (logger.go lines 33-39). -/
structure LogConfig where
  FilenameOrIoWriter : DestValue
  FileMaxSize : Int
  FileMaxBackup : Int
  FileMaxAge : Int
  FileCompress : Bool
deriving DecidableEq

/-- The Go zero value of LogConfig, as produced by the empty composite
literal on logger.go line 81. -/
def LogConfig.zero : LogConfig :=
  { FilenameOrIoWriter := DestValue.null
    FileMaxSize := 0
    FileMaxBackup := 0
    FileMaxAge := 0
    FileCompress := false }

/-- Timestamp encoding choice of the encoder configuration. -/
inductive TimeEncoder where
  | iso8601
  | epoch
deriving DecidableEq

/-- Level-label casing choice of the encoder configuration. -/
inductive LevelEncoder where
  | capital
  | lowercase
deriving DecidableEq

/-- Output shape of the encoder. -/
inductive EncoderKind where
  | console
  | json
deriving DecidableEq

/-- A zapcore.Encoder, tracked up to the configuration choices the code
makes (logger.go lines 100-105). -/
structure Encoder where
  encodeTime : TimeEncoder
  encodeLevel : LevelEncoder
  kind : EncoderKind
deriving DecidableEq

/-- getEncoder (logger.go lines 100-105): production encoder config with
ISO8601 timestamps and capitalized level labels, console encoding. -/
def getEncoder : Encoder :=
  { encodeTime := TimeEncoder.iso8601
    encodeLevel := LevelEncoder.capital
    kind := EncoderKind.console }

/-- A zapcore.Core as built on logger.go line 67: encoder, synced sink,
and the caller-supplied level threshold. -/
structure Core where
  encoder : Encoder
  sink : Writer
  level : Level
deriving DecidableEq

/-- A zap.Logger as built on logger.go line 69: a core plus the caller
location options AddCaller and AddCallerSkip 1. -/
structure Logger where
  core : Core
  addCaller : Bool
  callerSkip : Nat
deriving DecidableEq

/-- A zap.SugaredLogger, obtained from a Logger by Sugar (line 70). -/
structure SugaredLogger where
  base : Logger
deriving DecidableEq

/-- The ZapLogger handle (logger.go lines 18-23). -/
structure ZapLogger where
  sugarLogger : SugaredLogger
  zapLogger : Logger
  logWriter : Writer
  config : LogConfig
deriving DecidableEq

/-- getWriter (logger.go lines 84-98): a type switch on the destination.
A path string yields a lumberjack rotating sink built from the
configuration settings; an io.Writer is returned verbatim; anything else
(nil included) is an error. -/
def getWriter (config : LogConfig) : Except GoErr Writer :=
  match config.FilenameOrIoWriter with
  | DestValue.path s =>
      Except.ok (Writer.lumberjack s config.FileMaxSize config.FileMaxBackup
        config.FileMaxAge config.FileCompress)
  | DestValue.writer w => Except.ok w
  | _ => Except.error (GoErr.mk "string / io.Writer only")

/-- The defaulting of non-positive thresholds performed at the start of
NewZapLogger (logger.go lines 42-52), as an update of the configuration:
age 30, backups 3, size 100. -/
def withDefaults (config : LogConfig) : LogConfig :=
  let config := if config.FileMaxAge ≤ 0 then { config with FileMaxAge := 30 } else config
  let config := if config.FileMaxBackup ≤ 0 then { config with FileMaxBackup := 3 } else config
  if config.FileMaxSize ≤ 0 then { config with FileMaxSize := 100 } else config

/-- Lines 66-70 of NewZapLogger: build the encoder and core over the
resolved writer and wrap them in both logging front ends; the handle
stores the configuration it was built from (the caller's struct,
aliased through the pointer in Go). -/
def mkHandle (w : Writer) (config : LogConfig) (logLevel : Level) : ZapLogger :=
  let core : Core := { encoder := getEncoder, sink := w, level := logLevel }
  let zl : Logger := { core := core, addCaller := true, callerSkip := 1 }
  { sugarLogger := { base := zl }, zapLogger := zl, logWriter := w, config := config }

/-- NewZapLogger (logger.go lines 41-72).  The Go function mutates the
caller's configuration through a pointer; here every mutation is an
explicit update and the final configuration is returned alongside the
handle.  The panic on line 62 is modelled as Except.error. -/
def NewZapLogger (config : LogConfig) (logLevel : Level) :
    Except String (ZapLogger × LogConfig) :=
  let config := withDefaults config
  match getWriter config with
  | Except.ok w => Except.ok (mkHandle w config logLevel, config)
  | Except.error _ =>
      let config := { config with FilenameOrIoWriter := DestValue.writer Writer.stdout }
      match getWriter config with
      | Except.ok w => Except.ok (mkHandle w config logLevel, config)
      | Except.error e =>
          Except.error ("Fail to enable default logWriter: " ++ e.msg)

/-- The writer NewZapLogger ends up installing: the one resolved from the
defaulted configuration, or os.Stdout after the fallback. -/
def resolvedWriter (config : LogConfig) : Writer :=
  match getWriter (withDefaults config) with
  | Except.ok w => w
  | Except.error _ => Writer.stdout

/-- The configuration as it stands when NewZapLogger returns: thresholds
defaulted, and the destination replaced by os.Stdout when the first
resolution failed. -/
def resolvedConfig (config : LogConfig) : LogConfig :=
  match getWriter (withDefaults config) with
  | Except.ok _ => withDefaults config
  | Except.error _ =>
      { withDefaults config with FilenameOrIoWriter := DestValue.writer Writer.stdout }

/-- InitDefaultLogger (logger.go lines 74-78): construct a new handle and
swap it into the global slot under the write lock.  The slot is explicit
state; a constructor panic (shown unreachable below) would kill the
process, leaving no readable handle (none). -/
def InitDefaultLogger (config : LogConfig) (logLevel : Level) : Option ZapLogger :=
  match NewZapLogger config logLevel with
  | Except.ok p => some p.1
  | Except.error _ => none

/-- The slot contents after the automatic package start-up run (logger.go
lines 80-82): InitDefaultLogger with the zero configuration and the debug
threshold. -/
def initSlot : Option ZapLogger :=
  InitDefaultLogger LogConfig.zero Level.debug

/-- The global slot after start-up followed by any sequence of explicit
InitDefaultLogger calls; each call replaces the slot unconditionally. -/
def runReinits (calls : List (LogConfig × Level)) : Option ZapLogger :=
  calls.foldl (fun _ call => InitDefaultLogger call.1 call.2) initSlot

/-- The two shapes of convenience emission: free-form arguments, or a
printf-style template plus arguments. -/
inductive EmitKind where
  | plain (args : List GoValue)
  | formatted (template : String) (args : List GoValue)
deriving DecidableEq

/-- One delegated emission: which sugared engine was called, at which
severity, with which payload. -/
structure Emission where
  logger : SugaredLogger
  level : Level
  kind : EmitKind
deriving DecidableEq

/-- A call to a level method of the external zap.SugaredLogger, recorded
as the emission it performs. -/
def SugaredLogger.emit (s : SugaredLogger) (lv : Level) (k : EmitKind) : Emission :=
  { logger := s, level := lv, kind := k }

/-- Instance method Debug (logger.go lines 107-109). -/
def ZapLogger.Debug (z : ZapLogger) (args : List GoValue) : Emission :=
  z.sugarLogger.emit Level.debug (EmitKind.plain args)

/-- Instance method Debugf (logger.go lines 111-113). -/
def ZapLogger.Debugf (z : ZapLogger) (template : String) (args : List GoValue) : Emission :=
  z.sugarLogger.emit Level.debug (EmitKind.formatted template args)

/-- Instance method Info (logger.go lines 115-117). -/
def ZapLogger.Info (z : ZapLogger) (args : List GoValue) : Emission :=
  z.sugarLogger.emit Level.info (EmitKind.plain args)

/-- Instance method Infof (logger.go lines 119-121). -/
def ZapLogger.Infof (z : ZapLogger) (template : String) (args : List GoValue) : Emission :=
  z.sugarLogger.emit Level.info (EmitKind.formatted template args)

/-- Instance method Warn (logger.go lines 123-125). -/
def ZapLogger.Warn (z : ZapLogger) (args : List GoValue) : Emission :=
  z.sugarLogger.emit Level.warn (EmitKind.plain args)

/-- Instance method Warnf (logger.go lines 127-129). -/
def ZapLogger.Warnf (z : ZapLogger) (template : String) (args : List GoValue) : Emission :=
  z.sugarLogger.emit Level.warn (EmitKind.formatted template args)

/-- Instance method Fatal (logger.go lines 131-133). -/
def ZapLogger.Fatal (z : ZapLogger) (args : List GoValue) : Emission :=
  z.sugarLogger.emit Level.fatal (EmitKind.plain args)

/-- Instance method Fatalf (logger.go lines 135-137). -/
def ZapLogger.Fatalf (z : ZapLogger) (template : String) (args : List GoValue) : Emission :=
  z.sugarLogger.emit Level.fatal (EmitKind.formatted template args)

/-- Instance method Error (logger.go lines 139-141). -/
def ZapLogger.Error (z : ZapLogger) (args : List GoValue) : Emission :=
  z.sugarLogger.emit Level.error (EmitKind.plain args)

/-- Instance method Errorf (logger.go lines 143-145). -/
def ZapLogger.Errorf (z : ZapLogger) (template : String) (args : List GoValue) : Emission :=
  z.sugarLogger.emit Level.error (EmitKind.formatted template args)

/-- Instance method DPanic (logger.go lines 147-149). -/
def ZapLogger.DPanic (z : ZapLogger) (args : List GoValue) : Emission :=
  z.sugarLogger.emit Level.dpanic (EmitKind.plain args)

/-- Instance method DPanicf (logger.go lines 151-153). -/
def ZapLogger.DPanicf (z : ZapLogger) (template : String) (args : List GoValue) : Emission :=
  z.sugarLogger.emit Level.dpanic (EmitKind.formatted template args)

namespace Global

/-- Global Debug (logger.go lines 155-159): under the read lock, delegate
to the sugared engine of the handle in the slot.  A none slot is a nil
pointer dereference, yielding no emission. -/
def Debug (slot : Option ZapLogger) (args : List GoValue) : Option Emission :=
  slot.map fun z => z.sugarLogger.emit Level.debug (EmitKind.plain args)

/-- Global Debugf (logger.go lines 161-165). -/
def Debugf (slot : Option ZapLogger) (template : String) (args : List GoValue) :
    Option Emission :=
  slot.map fun z => z.sugarLogger.emit Level.debug (EmitKind.formatted template args)

/-- Global Info (logger.go lines 167-171). -/
def Info (slot : Option ZapLogger) (args : List GoValue) : Option Emission :=
  slot.map fun z => z.sugarLogger.emit Level.info (EmitKind.plain args)

/-- Global Infof (logger.go lines 173-177). -/
def Infof (slot : Option ZapLogger) (template : String) (args : List GoValue) :
    Option Emission :=
  slot.map fun z => z.sugarLogger.emit Level.info (EmitKind.formatted template args)

/-- Global Warn (logger.go lines 179-183). -/
def Warn (slot : Option ZapLogger) (args : List GoValue) : Option Emission :=
  slot.map fun z => z.sugarLogger.emit Level.warn (EmitKind.plain args)

/-- Global Warnf (logger.go lines 185-189). -/
def Warnf (slot : Option ZapLogger) (template : String) (args : List GoValue) :
    Option Emission :=
  slot.map fun z => z.sugarLogger.emit Level.warn (EmitKind.formatted template args)

/-- Global Fatal (logger.go lines 191-195). -/
def Fatal (slot : Option ZapLogger) (args : List GoValue) : Option Emission :=
  slot.map fun z => z.sugarLogger.emit Level.fatal (EmitKind.plain args)

/-- Global Fatalf (logger.go lines 197-201). -/
def Fatalf (slot : Option ZapLogger) (template : String) (args : List GoValue) :
    Option Emission :=
  slot.map fun z => z.sugarLogger.emit Level.fatal (EmitKind.formatted template args)

/-- Global Error (logger.go lines 203-207). -/
def Error (slot : Option ZapLogger) (args : List GoValue) : Option Emission :=
  slot.map fun z => z.sugarLogger.emit Level.error (EmitKind.plain args)

/-- Global Errorf (logger.go lines 209-213). -/
def Errorf (slot : Option ZapLogger) (template : String) (args : List GoValue) :
    Option Emission :=
  slot.map fun z => z.sugarLogger.emit Level.error (EmitKind.formatted template args)

/-- Global DPanic (logger.go lines 215-219). -/
def DPanic (slot : Option ZapLogger) (args : List GoValue) : Option Emission :=
  slot.map fun z => z.sugarLogger.emit Level.dpanic (EmitKind.plain args)

/-- Global DPanicf (logger.go lines 221-225). -/
def DPanicf (slot : Option ZapLogger) (template : String) (args : List GoValue) :
    Option Emission :=
  slot.map fun z => z.sugarLogger.emit Level.dpanic (EmitKind.formatted template args)

end Global

/-- ZapLogWriter (logger.go lines 235-237): a byte sink bound to a
severity label string. -/
structure ZapLogWriter where
  level : String
deriving DecidableEq

/-- NewZapLogWriter (logger.go lines 239-241). -/
def NewZapLogWriter (level : String) : ZapLogWriter :=
  { level := level }

/-- The severity selected by the switch in ZapLogWriter.Write (logger.go
lines 245-260); the empty label and any unrecognized label fall to info. -/
def levelForLabel (s : String) : Level :=
  if s = "debug" ∨ s = "DEBUG" then Level.debug
  else if s = "info" ∨ s = "INFO" ∨ s = "" then Level.info
  else if s = "warn" ∨ s = "WARN" then Level.warn
  else if s = "error" ∨ s = "ERROR" then Level.error
  else if s = "panic" ∨ s = "PANIC" then Level.panic
  else if s = "fatal" ∨ s = "FATAL" then Level.fatal
  else Level.info

/-- The case labels of that switch; a label outside this list hits the
default branch. -/
def switchLabels : List String :=
  ["debug", "DEBUG", "info", "INFO", "", "warn", "WARN", "error", "ERROR",
   "panic", "PANIC", "fatal", "FATAL"]

/-- What a sink Write call does: the log records it emits, and its return
value.  ret = none models a call that never returns because the delegated
emission ends the process (zap's Fatal calls os.Exit after logging, and
Panic panics after logging). -/
structure WriteResult where
  emitted : List Emission
  ret : Option (Nat × Option GoErr)
deriving DecidableEq

/-- ZapLogWriter.Write (logger.go lines 243-263): one log call on the
current global handle at the label's severity, with the buffer converted
to a string as the single argument; then return (len b, nil).  For
labels bound to panic or fatal the delegated call does not come back, so
the return statement is never reached.  The handle read from the slot
under the lock is passed explicitly. -/
def ZapLogWriter.Write (z : ZapLogWriter) (current : ZapLogger) (b : List UInt8) :
    WriteResult :=
  let lv := levelForLabel z.level
  { emitted := [current.sugarLogger.emit lv (EmitKind.plain [GoValue.str b])]
    ret := if lv = Level.panic ∨ lv = Level.fatal then none
           else some (b.length, none) }

/-- NullWriter (logger.go lines 265-267). -/
inductive NullWriter where
  | mk
deriving DecidableEq

/-- NullWriter.Write (logger.go lines 269-271): report (len b, nil) and
do nothing else. -/
def NullWriter.Write (_n : NullWriter) (b : List UInt8) : WriteResult :=
  { emitted := [], ret := some (b.length, none) }

/-- The UTF-8 bytes of the buffer "hello". -/
def hello : List UInt8 := [104, 101, 108, 108, 111]

/-- A concrete handle, as the start-up initialization builds it. -/
def sampleHandle : ZapLogger :=
  mkHandle Writer.stdout LogConfig.zero Level.debug

/-- Resolving a configuration whose destination is os.Stdout always
succeeds and returns that writer. -/
theorem getWriter_set_stdout (c : LogConfig) :
    getWriter { c with FilenameOrIoWriter := DestValue.writer Writer.stdout } =
      Except.ok Writer.stdout := rfl

/-- withDefaults in closed form: each threshold is replaced exactly when
non-positive; destination and compression flag are untouched. -/
theorem withDefaults_eq (c : LogConfig) :
    withDefaults c =
      { FilenameOrIoWriter := c.FilenameOrIoWriter
        FileMaxSize := if c.FileMaxSize ≤ 0 then 100 else c.FileMaxSize
        FileMaxBackup := if c.FileMaxBackup ≤ 0 then 3 else c.FileMaxBackup
        FileMaxAge := if c.FileMaxAge ≤ 0 then 30 else c.FileMaxAge
        FileCompress := c.FileCompress } := by
  obtain ⟨d, ms, mb, ma, cp⟩ := c
  by_cases hma : ma ≤ 0 <;> by_cases hmb : mb ≤ 0 <;> by_cases hms : ms ≤ 0 <;>
    simp [withDefaults, hma, hmb, hms]

/-- NewZapLogger never panics: it always returns the handle built over the
resolved writer, paired with the resolved configuration. -/
theorem newZapLogger_eq (c : LogConfig) (lv : Level) :
    NewZapLogger c lv =
      Except.ok (mkHandle (resolvedWriter c) (resolvedConfig c) lv, resolvedConfig c) := by
  unfold NewZapLogger resolvedWriter resolvedConfig
  cases h : getWriter (withDefaults c) with
  | ok w => simp [h]
  | error e => simp [h, getWriter_set_stdout]

/-- Claim C1: destination resolution is a three-way case split: a path
string yields a rotating file sink built from the configuration's
max-size, max-backups, max-age and compression settings; an io.Writer is
returned verbatim; any other value (nil included) is an error. -/
theorem getWriter_three_way_split (c : LogConfig) :
    (∀ s, c.FilenameOrIoWriter = DestValue.path s →
      getWriter c = Except.ok (Writer.lumberjack s c.FileMaxSize c.FileMaxBackup
        c.FileMaxAge c.FileCompress))
    ∧ (∀ w, c.FilenameOrIoWriter = DestValue.writer w → getWriter c = Except.ok w)
    ∧ ((∀ s, c.FilenameOrIoWriter ≠ DestValue.path s) →
        (∀ w, c.FilenameOrIoWriter ≠ DestValue.writer w) →
        getWriter c = Except.error (GoErr.mk "string / io.Writer only")) := by
  refine ⟨fun s hs => ?_, fun w hw => ?_, fun hs hw => ?_⟩
  · simp [getWriter, hs]
  · simp [getWriter, hw]
  · cases hd : c.FilenameOrIoWriter with
    | null => simp [getWriter, hd]
    | path s => exact absurd hd (hs s)
    | writer w => exact absurd hd (hw w)
    | other v => simp [getWriter, hd]

/-- Witness for C1: a concrete path destination resolves to the rotating
sink with exactly the configured settings. -/
theorem getWriter_three_way_split_witness :
    getWriter ⟨DestValue.path "app.log", 7, 2, 9, true⟩ =
      Except.ok (Writer.lumberjack "app.log" 7 2 9 true) :=
  (getWriter_three_way_split _).1 "app.log" rfl

/-- Claim C2: when the first destination resolution fails, NewZapLogger
replaces the destination with os.Stdout and retries once, succeeding;
and construction panics if and only if that second resolution also
fails (which never happens, so both sides of the iff are false). -/
theorem newZapLogger_fallback_retry (c : LogConfig) (lv : Level) :
    ((∃ e, getWriter (withDefaults c) = Except.error e) →
      NewZapLogger c lv =
        Except.ok
          (mkHandle Writer.stdout
            { withDefaults c with FilenameOrIoWriter := DestValue.writer Writer.stdout } lv,
           { withDefaults c with FilenameOrIoWriter := DestValue.writer Writer.stdout }))
    ∧ ((∃ m, NewZapLogger c lv = Except.error m) ↔
        ((∃ e, getWriter (withDefaults c) = Except.error e) ∧
         ∃ e, getWriter { withDefaults c with
           FilenameOrIoWriter := DestValue.writer Writer.stdout } = Except.error e)) := by
  constructor
  · rintro ⟨e, he⟩
    simp [NewZapLogger, he, getWriter_set_stdout]
  · constructor
    · rintro ⟨m, hm⟩
      rw [newZapLogger_eq] at hm
      simp at hm
    · rintro ⟨-, e2, he2⟩
      rw [getWriter_set_stdout] at he2
      simp at he2

/-- Witness for C2: the zero configuration has a nil destination, so the
first resolution fails and construction lands on the stdout fallback. -/
theorem newZapLogger_fallback_retry_witness :
    NewZapLogger LogConfig.zero Level.info =
      Except.ok
        (mkHandle Writer.stdout
          { withDefaults LogConfig.zero with
            FilenameOrIoWriter := DestValue.writer Writer.stdout } Level.info,
         { withDefaults LogConfig.zero with
           FilenameOrIoWriter := DestValue.writer Writer.stdout }) :=
  (newZapLogger_fallback_retry LogConfig.zero Level.info).1
    ⟨GoErr.mk "string / io.Writer only", rfl⟩

/-- Claim C3: construction substitutes the defaults size 100, backups 3,
age 30 for exactly the non-positive threshold fields and keeps positive
values unchanged, in the configuration the returned handle carries. -/
theorem newZapLogger_threshold_defaults (c : LogConfig) (lv : Level) :
    ∃ zl c', NewZapLogger c lv = Except.ok (zl, c')
      ∧ c'.FileMaxSize = (if c.FileMaxSize ≤ 0 then 100 else c.FileMaxSize)
      ∧ c'.FileMaxBackup = (if c.FileMaxBackup ≤ 0 then 3 else c.FileMaxBackup)
      ∧ c'.FileMaxAge = (if c.FileMaxAge ≤ 0 then 30 else c.FileMaxAge) := by
  refine ⟨_, _, newZapLogger_eq c lv, ?_, ?_, ?_⟩ <;>
    · unfold resolvedConfig
      cases h : getWriter (withDefaults c) <;> simp [withDefaults_eq]

/-- Every InitDefaultLogger call installs a freshly constructed handle;
none is never the outcome. -/
theorem initDefault_some (c : LogConfig) (lv : Level) :
    ∃ z, InitDefaultLogger c lv = some z := by
  unfold InitDefaultLogger
  rw [newZapLogger_eq]
  exact ⟨_, rfl⟩

/-- Folding any sequence of reinitialization calls over a populated slot
keeps the slot populated. -/
theorem foldl_reinit_isSome (l : List (LogConfig × Level)) (s : Option ZapLogger)
    (hs : s.isSome = true) :
    (l.foldl (fun _ call => InitDefaultLogger call.1 call.2) s).isSome = true := by
  induction l generalizing s with
  | nil => exact hs
  | cons a t ih =>
      simp only [List.foldl]
      apply ih
      obtain ⟨z, hz⟩ := initDefault_some a.1 a.2
      simp [hz]

/-- Claim C4: the start-up run populates the slot from the zero
configuration at the debug threshold (the resulting handle filters at
debug level and writes to the stdout fallback); every reinitialization
installs a fresh non-nil handle; and after start-up followed by any
sequence of reinitializations the slot read by the global functions is
populated. -/
theorem slot_never_nil :
    (∃ z, initSlot = some z ∧ z.zapLogger.core.level = Level.debug
       ∧ z.config.FilenameOrIoWriter = DestValue.writer Writer.stdout)
    ∧ (∀ c lv, ∃ z, InitDefaultLogger c lv = some z)
    ∧ (∀ calls, (runReinits calls).isSome = true) := by
  refine ⟨⟨_, rfl, rfl, rfl⟩, initDefault_some, fun calls => ?_⟩
  exact foldl_reinit_isSome calls initSlot rfl

/-- Claim C8: each of the twelve global emission functions (one plain and
one formatted per severity in debug, info, warn, error, fatal, dpanic),
applied to any arguments, performs exactly the emission the corresponding
instance method of the handle currently in the slot performs. -/
theorem global_matches_instance (slot : Option ZapLogger) (z : ZapLogger)
    (hz : slot = some z) (args : List GoValue) (template : String) :
    Global.Debug slot args = some (z.Debug args)
    ∧ Global.Debugf slot template args = some (z.Debugf template args)
    ∧ Global.Info slot args = some (z.Info args)
    ∧ Global.Infof slot template args = some (z.Infof template args)
    ∧ Global.Warn slot args = some (z.Warn args)
    ∧ Global.Warnf slot template args = some (z.Warnf template args)
    ∧ Global.Error slot args = some (z.Error args)
    ∧ Global.Errorf slot template args = some (z.Errorf template args)
    ∧ Global.Fatal slot args = some (z.Fatal args)
    ∧ Global.Fatalf slot template args = some (z.Fatalf template args)
    ∧ Global.DPanic slot args = some (z.DPanic args)
    ∧ Global.DPanicf slot template args = some (z.DPanicf template args) := by
  subst hz
  exact ⟨rfl, rfl, rfl, rfl, rfl, rfl, rfl, rfl, rfl, rfl, rfl, rfl⟩

/-- Witness for C8: with a concrete handle in the slot, the global Warn
call equals the instance Warn call on that handle. -/
theorem global_matches_instance_witness :
    Global.Warn (some sampleHandle) [GoValue.boxed 0] =
      some (sampleHandle.Warn [GoValue.boxed 0]) :=
  (global_matches_instance (some sampleHandle) sampleHandle rfl
    [GoValue.boxed 0] "").2.2.2.2.1

/-- Counterexample to C5 as stated: an adapter can be constructed with
the label "fatal", and then Write("hello") does not return (len 5, nil):
the delegated zap Fatal call exits the process after logging, so the
return statement on line 262 is never reached (ret = none). -/
theorem write_fatal_label_no_return :
    (ZapLogWriter.Write (NewZapLogWriter "fatal") sampleHandle hello).ret = none
    ∧ (ZapLogWriter.Write (NewZapLogWriter "fatal") sampleHandle hello).ret ≠
        some (hello.length, (none : Option GoErr)) := by
  exact ⟨rfl, by decide⟩

/-- Claim C5 (amended): for every buffer and every label not bound to the
panic or fatal severity, Write emits one record and returns
(length of buffer, no error); panic- and fatal-bound labels log the
record but never return. -/
theorem write_full_length_no_error (z : ZapLogWriter) (current : ZapLogger)
    (b : List UInt8) (hp : levelForLabel z.level ≠ Level.panic)
    (hf : levelForLabel z.level ≠ Level.fatal) :
    ZapLogWriter.Write z current b =
      { emitted := [current.sugarLogger.emit (levelForLabel z.level)
          (EmitKind.plain [GoValue.str b])]
        ret := some (b.length, none) } := by
  simp [ZapLogWriter.Write, hp, hf]

/-- Witness for the amended C5: the "warn" label returns the full length
with no error. -/
theorem write_full_length_no_error_witness :
    ZapLogWriter.Write (NewZapLogWriter "warn") sampleHandle hello =
      { emitted := [sampleHandle.sugarLogger.emit (levelForLabel "warn")
          (EmitKind.plain [GoValue.str hello])]
        ret := some (hello.length, none) } :=
  write_full_length_no_error (NewZapLogWriter "warn") sampleHandle hello
    (by decide) (by decide)

/-- A label outside the switch cases hits the default branch: info. -/
theorem levelForLabel_default (s : String) (hs : s ∉ switchLabels) :
    levelForLabel s = Level.info := by
  simp only [switchLabels, List.mem_cons, List.not_mem_nil, or_false, not_or] at hs
  obtain ⟨h1, h2, h3, h4, h5, h6, h7, h8, h9, h10, h11, h12, h13⟩ := hs
  simp [levelForLabel, h1, h2, h3, h4, h5, h6, h7, h8, h9, h10, h11, h12, h13]

/-- Claim C6: an adapter with the empty label behaves identically to one
labeled "info", an adapter with any unrecognized label does too, and in
all three cases every buffer is emitted at info severity with the same
return value. -/
theorem empty_and_unknown_labels_are_info (current : ZapLogger) (b : List UInt8)
    (s : String) (hs : s ∉ switchLabels) :
    ZapLogWriter.Write (NewZapLogWriter "") current b =
      ZapLogWriter.Write (NewZapLogWriter "info") current b
    ∧ ZapLogWriter.Write (NewZapLogWriter s) current b =
        ZapLogWriter.Write (NewZapLogWriter "info") current b
    ∧ (ZapLogWriter.Write (NewZapLogWriter "") current b).emitted =
        [current.sugarLogger.emit Level.info (EmitKind.plain [GoValue.str b])] := by
  have hdef := levelForLabel_default s hs
  refine ⟨rfl, ?_, rfl⟩
  have hinfo : levelForLabel "info" = Level.info := rfl
  simp [ZapLogWriter.Write, NewZapLogWriter, hdef, hinfo]

/-- Witness for C6: the label "dpanic" is not a switch case, so an
adapter labeled "dpanic" writes exactly as one labeled "info". -/
theorem empty_and_unknown_labels_are_info_witness :
    ZapLogWriter.Write (NewZapLogWriter "dpanic") sampleHandle hello =
      ZapLogWriter.Write (NewZapLogWriter "info") sampleHandle hello :=
  (empty_and_unknown_labels_are_info sampleHandle hello "dpanic" (by decide)).2.1

/-- Claim C7: writing the buffer "hello" through an adapter constructed
with the label "warn" produces exactly one warn-level record whose
message is that buffer, and returns (5, no error), whatever the current
global handle is. -/
theorem warn_write_hello (current : ZapLogger) :
    ZapLogWriter.Write (NewZapLogWriter "warn") current hello =
      { emitted := [current.sugarLogger.emit Level.warn
          (EmitKind.plain [GoValue.str hello])]
        ret := some (5, none) } := rfl

/-- Claim C9: the null sink returns (length of buffer, no error) and
emits nothing, for every buffer. -/
theorem null_writer_write (n : NullWriter) (b : List UInt8) :
    NullWriter.Write n b =
      { emitted := [], ret := some (b.length, (none : Option GoErr)) } := rfl

/-- Claim C10: construction returns the caller's configuration updated in
place: non-positive thresholds overwritten with the defaults, the
destination overwritten with os.Stdout exactly when the first resolution
failed, everything else unchanged, and the returned handle's config field
is that same updated configuration (the Go handle aliases the caller's
struct through the pointer). -/
theorem newZapLogger_updates_callers_config (c : LogConfig) (lv : Level) :
    ∃ zl c', NewZapLogger c lv = Except.ok (zl, c')
      ∧ zl.config = c'
      ∧ c'.FileMaxSize = (if c.FileMaxSize ≤ 0 then 100 else c.FileMaxSize)
      ∧ c'.FileMaxBackup = (if c.FileMaxBackup ≤ 0 then 3 else c.FileMaxBackup)
      ∧ c'.FileMaxAge = (if c.FileMaxAge ≤ 0 then 30 else c.FileMaxAge)
      ∧ c'.FileCompress = c.FileCompress
      ∧ ((∃ e, getWriter (withDefaults c) = Except.error e) →
          c'.FilenameOrIoWriter = DestValue.writer Writer.stdout)
      ∧ ((∃ w, getWriter (withDefaults c) = Except.ok w) →
          c'.FilenameOrIoWriter = c.FilenameOrIoWriter) := by
  refine ⟨_, _, newZapLogger_eq c lv, rfl, ?_, ?_, ?_, ?_, ?_, ?_⟩ <;>
    · unfold resolvedConfig
      cases h : getWriter (withDefaults c) <;> simp_all [withDefaults_eq]

/-- Witness for C10: on the zero configuration (nil destination, zero
thresholds) the caller's struct comes back with all three defaults and
the stdout destination, and the handle carries that same struct. -/
theorem newZapLogger_updates_callers_config_witness :
    ∃ zl c', NewZapLogger LogConfig.zero Level.info = Except.ok (zl, c')
      ∧ zl.config = c'
      ∧ c'.FileMaxSize = 100 ∧ c'.FileMaxBackup = 3 ∧ c'.FileMaxAge = 30
      ∧ c'.FilenameOrIoWriter = DestValue.writer Writer.stdout := by
  obtain ⟨zl, c', h1, h2, h3, h4, h5, -, h7, -⟩ :=
    newZapLogger_updates_callers_config LogConfig.zero Level.info
  exact ⟨zl, c', h1, h2, by simpa using h3, by simpa using h4, by simpa using h5,
    h7 ⟨GoErr.mk "string / io.Writer only", rfl⟩⟩

end Zaplogger
